import Mathlib

/-!
Shallow embedding of the upi-sentinel hybrid fraud-scoring pipeline
(server/src/utils/rules.utils.js and server/src/services/transaction.services.js).

Conventions of the embedding:
* JavaScript numbers are embedded as exact rationals (the decimal literals of
  the source, 0.4, 0.6, 0.7, 0.9, are taken at their mathematical value).
* JavaScript values that may be null/undefined are embedded as Option;
  the falsiness of the empty string under the JS operator a || b is modelled
  explicitly by jsOrS.
* Date.now() is modelled as an explicit clock argument; the outcome of the
  awaited remote-scorer call is an explicit Except argument (ok = returned
  value, error = thrown error message), and the remote call itself is
  modelled separately as a function of a per-attempt response oracle.
-/

/-- A transaction row as consumed by the rule engine and the batch processor:
string fields may be missing (undefined in JS), amount is numeric. -/
structure Txn where
  txn_id : Option String
  sender_vpa : Option String
  sender_upi : Option String
  receiver_vpa : Option String
  receiver_upi : Option String
  amount : ℚ
  type : Option String
  beneficiary_type : Option String
  description : Option String
  deriving DecidableEq

/-- A historical transaction record (only its amount is ever inspected). -/
structure HistTxn where
  amount : ℚ
  deriving DecidableEq

/-- Result of one rule evaluation: triggered flag, risk contribution, and a
reason that is present only when the rule triggered. -/
structure RuleOutcome where
  triggered : Bool
  risk : ℚ
  reason : Option String
  deriving DecidableEq

/-- JavaScript a || b on a possibly-missing string: undefined/null and the
empty string are falsy and select the fallback. -/
def jsOrS : Option String → String → String
  | some s, d => if s = "" then d else s
  | none, d => d

/-- Helper for jsIncludes: needle is a leading segment of haystack. -/
def startsWithList : List Char → List Char → Bool
  | _, [] => true
  | [], _ :: _ => false
  | a :: as, b :: bs => a == b && startsWithList as bs

/-- Helper for jsIncludes: needle occurs contiguously somewhere in haystack. -/
def hasSubList (sub : List Char) : List Char → Bool
  | [] => sub.isEmpty
  | c :: rest => startsWithList (c :: rest) sub || hasSubList sub rest

/-- JavaScript s.includes(sub): substring containment test. -/
def jsIncludes (s sub : String) : Bool :=
  hasSubList sub.toList s.toList

/-- JavaScript s.toLowerCase(): lower-case every character (character-level
map, evaluable by the kernel). -/
def jsToLower (s : String) : String :=
  String.mk (s.toList.map Char.toLower)

namespace rules

/-- Rule 1, GROOMING (rules.utils.js): if the current amount is below 1000 the
check is skipped; otherwise a history with at least 3 micro-transactions
(amount at most 50) triggers with risk 75. -/
def checkGrooming (txn : Txn) (history : List HistTxn) : RuleOutcome :=
  if txn.amount < 1000 then { triggered := false, risk := 0, reason := none }
  else
    let microTxns := (history.filter fun t => t.amount ≤ 50).length
    if microTxns ≥ 3 then
      { triggered := true
        risk := 75
        reason := some "Grooming Detected: 3+ micro-transactions found before high value transfer." }
    else { triggered := false, risk := 0, reason := none }

/-- Rule 2, GHOST CREDIT (rules.utils.js): for an INDIVIDUAL beneficiary with
no prior incoming record, a description containing a refund-like keyword
triggers with risk 95. -/
def checkGhostCredit (txn : Txn) (lastIncomingFromBeneficiary : Option HistTxn) : RuleOutcome :=
  if txn.beneficiary_type ≠ some "INDIVIDUAL" then
    { triggered := false, risk := 0, reason := none }
  else
    if lastIncomingFromBeneficiary = none then
      let desc := jsToLower (jsOrS txn.description "")
      let suspiciousKeywords := ["return", "mistake", "refund", "sent by mistake", "back"]
      if suspiciousKeywords.any fun k => jsIncludes desc k then
        { triggered := true
          risk := 95
          reason := some "Fake Payment Alert: You are refunding money you never received." }
      else { triggered := false, risk := 0, reason := none }
    else { triggered := false, risk := 0, reason := none }

/-- Rule 3, REFUND SCAM (rules.utils.js): a COLLECT request whose description
contains a prize/refund keyword triggers with risk 100. -/
def checkRefundScam (txn : Txn) : RuleOutcome :=
  if txn.type = some "COLLECT" then
    let keywords := ["refund", "cashback", "prize", "won", "lottery", "claim"]
    let desc := jsToLower (jsOrS txn.description "")
    if keywords.any fun k => jsIncludes desc k then
      { triggered := true
        risk := 100
        reason := some "Refund Scam: 'Collect' request disguised as a Refund/Prize." }
    else { triggered := false, risk := 0, reason := none }
  else { triggered := false, risk := 0, reason := none }

end rules

/-- Rule aggregator checkHardcodedRules (rules.utils.js): runs the three rules,
adding the risk of each triggered rule to totalScore, then normalizes by 100
with a clamp at 1.0. The service never supplies history, so grooming is called
with the default empty history and ghost credit with null. -/
def checkHardcodedRules (txn : Txn) : ℚ :=
  let totalScore : ℚ := 0
  let grooming := rules.checkGrooming txn []
  let totalScore := if grooming.triggered then totalScore + grooming.risk else totalScore
  let ghost := rules.checkGhostCredit txn none
  let totalScore := if ghost.triggered then totalScore + ghost.risk else totalScore
  let refund := rules.checkRefundScam txn
  let totalScore := if refund.triggered then totalScore + refund.risk else totalScore
  min (totalScore / 100) 1

/-- Risk contribution a rule outcome adds to the aggregate: its risk when
triggered, 0 otherwise. -/
def triggeredRisk (o : RuleOutcome) : ℚ :=
  if o.triggered then o.risk else 0

/-- Sum of the contributions of the three rules as the aggregator invokes them
(no history for grooming, null prior-incoming record for ghost credit). -/
def ruleTotalScore (txn : Txn) : ℚ :=
  triggeredRisk (rules.checkGrooming txn []) +
    triggeredRisk (rules.checkGhostCredit txn none) +
    triggeredRisk (rules.checkRefundScam txn)

/-- parseFloat(x.toFixed(3)): rounding to 3 decimal places, halves rounded up
(the behaviour of toFixed on the nonnegative scores the pipeline produces). -/
def round3 (x : ℚ) : ℚ :=
  ((⌊1000 * x + 1 / 2⌋ : ℤ) : ℚ) / 1000

/-- The scored result record built by processTransactions
(transaction.services.js). -/
structure ScoredTxn where
  transaction_id : String
  sender_upi : String
  receiver_upi : String
  amount : ℚ
  risk_score : ℚ
  verdict : String
  reason : String
  ml_score : Option ℚ
  rule_score : ℚ
  deriving DecidableEq

/-- One iteration of the loop body of processTransactions: the try branch when
the awaited ML call returned a score, the catch branch when it threw. clock is
the value Date.now() yields while building the result, i the loop index. -/
def processOne (clock i : ℕ) (txn : Txn) (mlResult : Except String ℚ) : ScoredTxn :=
  match mlResult with
  | Except.ok mlScore =>
    let ruleScore := checkHardcodedRules txn
    let finalRisk := ruleScore * 0.4 + mlScore * 0.6
    let finalRisk := if ruleScore ≥ 0.9 then 1.0 else finalRisk
    { transaction_id := jsOrS txn.txn_id ("TXN-" ++ toString clock ++ "-" ++ toString i)
      sender_upi := jsOrS txn.sender_vpa (jsOrS txn.sender_upi "unknown")
      receiver_upi := jsOrS txn.receiver_vpa (jsOrS txn.receiver_upi "unknown")
      amount := txn.amount
      risk_score := round3 finalRisk
      verdict := if finalRisk > 0.7 then "FRAUD" else "SAFE"
      reason := if finalRisk > 0.7 then "High Risk Detected by Hybrid Engine" else "Clean"
      ml_score := some mlScore
      rule_score := ruleScore }
  | Except.error _ =>
    let ruleScore := checkHardcodedRules txn
    { transaction_id := jsOrS txn.txn_id ("TXN-" ++ toString clock ++ "-" ++ toString i)
      sender_upi := jsOrS txn.sender_vpa "unknown"
      receiver_upi := jsOrS txn.receiver_vpa "unknown"
      amount := txn.amount
      risk_score := round3 ruleScore
      verdict := if ruleScore > 0.7 then "FRAUD" else "SAFE"
      reason := "ML unavailable - Rule-based scoring only"
      ml_score := none
      rule_score := ruleScore }

/-- The batch loop of processTransactions from index i onward: one result is
pushed per transaction, in input order. clock gives the Date.now() sample and
ml the remote-call outcome for each index. -/
def processFrom (clock : ℕ → ℕ) (ml : ℕ → Except String ℚ) : ℕ → List Txn → List ScoredTxn
  | _, [] => []
  | i, txn :: rest => processOne (clock i) i txn (ml i) :: processFrom clock ml (i + 1) rest

/-- processTransactions (transaction.services.js): iterate the whole batch
starting at index 0. -/
def processTransactions (clock : ℕ → ℕ) (txns : List Txn) (ml : ℕ → Except String ℚ) : List ScoredTxn :=
  processFrom clock ml 0 txns

/-- Response of one network attempt against the remote scorer: a successful
reply carrying an optional fraud_probability field, or a failure (timeout,
transport error, thrown by axios). -/
inductive AttemptResult
  | ok (fraud_probability : Option ℚ)
  | fail (message : String)
  deriving DecidableEq

deriving instance DecidableEq for Except

/-- Observable behaviour of one callMlApi invocation: the value returned or
error thrown (none models the loop falling through with retries = 0), the
backoff delays awaited, and the number of attempts made. -/
structure MlCallTrace where
  result : Option (Except String ℚ)
  delays : List ℕ
  attempts : ℕ
  deriving DecidableEq

/-- Backoff delay computed after a failed attempt:
min(1000 * 2 ^ (attempt - 1), 5000) milliseconds. -/
def mlDelay (attempt : ℕ) : ℕ :=
  min (1000 * 2 ^ (attempt - 1)) 5000

/-- The retry loop of callMlApi, parameterized by the per-attempt response
oracle; fuel counts the remaining loop iterations (retries - attempt + 1).
A successful response yields fraud_probability || 0; a failure on the last
attempt throws the definitive error; otherwise the loop waits mlDelay attempt
and retries. -/
def attemptLoop (oracle : ℕ → AttemptResult) (retries : ℕ) : ℕ → ℕ → MlCallTrace
  | _, 0 => { result := none, delays := [], attempts := 0 }
  | attempt, fuel + 1 =>
    match oracle attempt with
    | AttemptResult.ok p =>
      { result := some (Except.ok (p.getD 0)), delays := [], attempts := 1 }
    | AttemptResult.fail e =>
      if attempt = retries then
        { result := some (Except.error
            ("ML API failed after " ++ toString retries ++ " attempts: " ++ e))
          delays := []
          attempts := 1 }
      else
        let rest := attemptLoop oracle retries (attempt + 1) fuel
        { result := rest.result
          delays := mlDelay attempt :: rest.delays
          attempts := rest.attempts + 1 }

/-- callMlApi (transaction.services.js): run the attempt loop from attempt 1;
the service always calls it with retries = 3. -/
def callMlApi (oracle : ℕ → AttemptResult) (retries : ℕ) : MlCallTrace :=
  attemptLoop oracle retries 1 retries

/-- Sample transaction: individual-beneficiary payment whose description says
refund; the ghost-credit rule triggers, so its rule score is 0.95. -/
def ghostTxn : Txn :=
  { txn_id := some "T1"
    sender_vpa := some "alice@upi"
    sender_upi := none
    receiver_vpa := some "bob@upi"
    receiver_upi := none
    amount := 500
    type := some "PAY"
    beneficiary_type := some "INDIVIDUAL"
    description := some "refund" }

/-- Sample transaction: merchant payment with an innocuous description; no
rule triggers, so its rule score is 0. -/
def cleanTxn : Txn :=
  { txn_id := some "T2"
    sender_vpa := some "alice@upi"
    sender_upi := none
    receiver_vpa := some "shop@upi"
    receiver_upi := none
    amount := 200
    type := some "PAY"
    beneficiary_type := some "MERCHANT"
    description := some "lunch" }

/-- Sample transaction identical in kind to cleanTxn but with no txn_id, so
the pipeline generates an identifier from the current time. -/
def noIdTxn : Txn :=
  { txn_id := none
    sender_vpa := some "alice@upi"
    sender_upi := none
    receiver_vpa := some "shop@upi"
    receiver_upi := none
    amount := 200
    type := some "PAY"
    beneficiary_type := some "MERCHANT"
    description := some "lunch" }

/-- Sample transaction with amount exactly 1000 (the grooming boundary). -/
def boundaryTxn : Txn :=
  { txn_id := some "T3"
    sender_vpa := some "alice@upi"
    sender_upi := none
    receiver_vpa := some "bob@upi"
    receiver_upi := none
    amount := 1000
    type := some "PAY"
    beneficiary_type := some "MERCHANT"
    description := none }

/-! Helper lemmas about the rule engine and the rounding function. -/

theorem grooming_empty_history (txn : Txn) :
    rules.checkGrooming txn [] = { triggered := false, risk := 0, reason := none } := by
  unfold rules.checkGrooming
  split
  · rfl
  · simp

theorem ghostCredit_cases (txn : Txn) (l : Option HistTxn) :
    rules.checkGhostCredit txn l = { triggered := false, risk := 0, reason := none } ∨
      rules.checkGhostCredit txn l =
        { triggered := true, risk := 95,
          reason := some "Fake Payment Alert: You are refunding money you never received." } := by
  unfold rules.checkGhostCredit
  split
  · exact Or.inl rfl
  · split
    · dsimp only
      split
      · exact Or.inr rfl
      · exact Or.inl rfl
    · exact Or.inl rfl

theorem refundScam_cases (txn : Txn) :
    rules.checkRefundScam txn = { triggered := false, risk := 0, reason := none } ∨
      rules.checkRefundScam txn =
        { triggered := true, risk := 100,
          reason := some "Refund Scam: 'Collect' request disguised as a Refund/Prize." } := by
  unfold rules.checkRefundScam
  split
  · dsimp only
    split
    · exact Or.inr rfl
    · exact Or.inl rfl
  · exact Or.inl rfl

theorem checkHardcodedRules_cases (txn : Txn) :
    checkHardcodedRules txn = 0 ∨ checkHardcodedRules txn = 0.95 ∨ checkHardcodedRules txn = 1 := by
  have hg := grooming_empty_history txn
  rcases ghostCredit_cases txn none with h1 | h1 <;> rcases refundScam_cases txn with h2 | h2
  · left
    simp only [checkHardcodedRules, hg, h1, h2]
    norm_num
  · right; right
    simp only [checkHardcodedRules, hg, h1, h2]
    norm_num [min_def]
  · right; left
    simp only [checkHardcodedRules, hg, h1, h2]
    norm_num [min_def]
  · right; right
    simp only [checkHardcodedRules, hg, h1, h2]
    norm_num [min_def]

theorem round3_eq (x : ℚ) (n : ℤ) (h1 : (n : ℚ) ≤ 1000 * x + 1 / 2)
    (h2 : 1000 * x + 1 / 2 < n + 1) : round3 x = (n : ℚ) / 1000 := by
  have h : ⌊1000 * x + 1 / 2⌋ = n := Int.floor_eq_iff.mpr ⟨h1, h2⟩
  rw [round3, h]

theorem round3_zero : round3 0 = 0 := by
  rw [round3_eq 0 0 (by norm_num) (by norm_num)]
  norm_num

theorem round3_one : round3 1 = 1 := by
  rw [round3_eq 1 1000 (by norm_num) (by norm_num)]
  norm_num

theorem round3_p95 : round3 0.95 = 0.95 := by
  rw [round3_eq 0.95 950 (by norm_num) (by norm_num)]
  norm_num

theorem round3_p6 : round3 (3 / 5) = 3 / 5 := by
  rw [round3_eq (3 / 5) 600 (by norm_num) (by norm_num)]
  norm_num

theorem round3_mono {x y : ℚ} (h : x ≤ y) : round3 x ≤ round3 y := by
  unfold round3
  have hf : ⌊1000 * x + 1 / 2⌋ ≤ ⌊1000 * y + 1 / 2⌋ := Int.floor_le_floor (by linarith)
  have hc : ((⌊1000 * x + 1 / 2⌋ : ℤ) : ℚ) ≤ ((⌊1000 * y + 1 / 2⌋ : ℤ) : ℚ) := by
    exact_mod_cast hf
  linarith

theorem ghostTxn_score : checkHardcodedRules ghostTxn = 0.95 := by
  have h : checkHardcodedRules ghostTxn = min ((0 + 95 : ℚ) / 100) 1 := rfl
  rw [h]
  norm_num [min_def]

theorem cleanTxn_score : checkHardcodedRules cleanTxn = 0 := by
  have h : checkHardcodedRules cleanTxn = min ((0 : ℚ) / 100) 1 := rfl
  rw [h]
  norm_num [min_def]

theorem attemptLoop_ok (oracle : ℕ → AttemptResult) (retries attempt fuel : ℕ) (p : Option ℚ)
    (ho : oracle attempt = AttemptResult.ok p) :
    attemptLoop oracle retries attempt (fuel + 1) =
      { result := some (Except.ok (p.getD 0)), delays := [], attempts := 1 } := by
  rw [attemptLoop, ho]

theorem attemptLoop_fail_last (oracle : ℕ → AttemptResult) (retries attempt fuel : ℕ) (e : String)
    (ho : oracle attempt = AttemptResult.fail e) (heq : attempt = retries) :
    attemptLoop oracle retries attempt (fuel + 1) =
      { result := some (Except.error
          ("ML API failed after " ++ toString retries ++ " attempts: " ++ e))
        delays := []
        attempts := 1 } := by
  rw [attemptLoop, ho]
  simp only [if_pos heq]

theorem attemptLoop_fail_step (oracle : ℕ → AttemptResult) (retries attempt fuel : ℕ) (e : String)
    (ho : oracle attempt = AttemptResult.fail e) (hne : attempt ≠ retries) :
    attemptLoop oracle retries attempt (fuel + 1) =
      { result := (attemptLoop oracle retries (attempt + 1) fuel).result
        delays := mlDelay attempt :: (attemptLoop oracle retries (attempt + 1) fuel).delays
        attempts := (attemptLoop oracle retries (attempt + 1) fuel).attempts + 1 } := by
  rw [attemptLoop, ho]
  simp only [if_neg hne]

theorem attemptLoop_attempts_le (oracle : ℕ → AttemptResult) (retries : ℕ) :
    ∀ fuel attempt, (attemptLoop oracle retries attempt fuel).attempts ≤ fuel := by
  intro fuel
  induction fuel with
  | zero =>
    intro attempt
    rw [attemptLoop]
  | succ n ih =>
    intro attempt
    cases ho : oracle attempt with
    | ok p =>
      rw [attemptLoop_ok oracle retries attempt n p ho]
      dsimp only
      omega
    | fail e =>
      by_cases heq : attempt = retries
      · rw [attemptLoop_fail_last oracle retries attempt n e ho heq]
        dsimp only
        omega
      · rw [attemptLoop_fail_step oracle retries attempt n e ho heq]
        dsimp only
        have := ih (attempt + 1)
        omega

theorem processFrom_length (clock : ℕ → ℕ) (ml : ℕ → Except String ℚ) :
    ∀ (txns : List Txn) (i : ℕ), (processFrom clock ml i txns).length = txns.length := by
  intro txns
  induction txns with
  | nil => intro i; rfl
  | cons t rest ih =>
    intro i
    simp only [processFrom, List.length_cons, ih (i + 1)]

theorem processFrom_getElem (clock : ℕ → ℕ) (ml : ℕ → Except String ℚ) :
    ∀ (txns : List Txn) (i k : ℕ),
      (processFrom clock ml i txns)[k]? =
        (txns[k]?).map fun t => processOne (clock (i + k)) (i + k) t (ml (i + k)) := by
  intro txns
  induction txns with
  | nil => intro i k; simp [processFrom]
  | cons t rest ih =>
    intro i k
    cases k with
    | zero => simp [processFrom]
    | succ m =>
      simp only [processFrom, List.getElem?_cons_succ]
      rw [ih (i + 1) m]
      have h : i + 1 + m = i + (m + 1) := by omega
      rw [h]

theorem callMlApi_ok_first (oracle : ℕ → AttemptResult) (p : Option ℚ)
    (h1 : oracle 1 = AttemptResult.ok p) :
    callMlApi oracle 3 =
      { result := some (Except.ok (p.getD 0)), delays := [], attempts := 1 } := by
  have s1 : callMlApi oracle 3 = attemptLoop oracle 3 1 (2 + 1) := rfl
  rw [s1, attemptLoop_ok oracle 3 1 2 p h1]

theorem callMlApi_ok_second (oracle : ℕ → AttemptResult) (e1 : String) (p : Option ℚ)
    (h1 : oracle 1 = AttemptResult.fail e1) (h2 : oracle 2 = AttemptResult.ok p) :
    callMlApi oracle 3 =
      { result := some (Except.ok (p.getD 0)), delays := [1000], attempts := 2 } := by
  have s1 : callMlApi oracle 3 = attemptLoop oracle 3 1 (2 + 1) := rfl
  have s2 : attemptLoop oracle 3 2 2 = attemptLoop oracle 3 2 (1 + 1) := rfl
  rw [s1, attemptLoop_fail_step oracle 3 1 2 e1 h1 (by omega), s2,
    attemptLoop_ok oracle 3 2 1 p h2]
  have hd1 : mlDelay 1 = 1000 := by norm_num [mlDelay]
  rw [hd1]

theorem callMlApi_ok_third (oracle : ℕ → AttemptResult) (e1 e2 : String) (p : Option ℚ)
    (h1 : oracle 1 = AttemptResult.fail e1) (h2 : oracle 2 = AttemptResult.fail e2)
    (h3 : oracle 3 = AttemptResult.ok p) :
    callMlApi oracle 3 =
      { result := some (Except.ok (p.getD 0)), delays := [1000, 2000], attempts := 3 } := by
  have s1 : callMlApi oracle 3 = attemptLoop oracle 3 1 (2 + 1) := rfl
  have s2 : attemptLoop oracle 3 2 2 = attemptLoop oracle 3 2 (1 + 1) := rfl
  have s3 : attemptLoop oracle 3 3 1 = attemptLoop oracle 3 3 (0 + 1) := rfl
  rw [s1, attemptLoop_fail_step oracle 3 1 2 e1 h1 (by omega), s2,
    attemptLoop_fail_step oracle 3 2 1 e2 h2 (by omega), s3,
    attemptLoop_ok oracle 3 3 0 p h3]
  have hd1 : mlDelay 1 = 1000 := by norm_num [mlDelay]
  have hd2 : mlDelay 2 = 2000 := by norm_num [mlDelay]
  rw [hd1, hd2]

theorem callMlApi_all_fail (oracle : ℕ → AttemptResult) (e1 e2 e3 : String)
    (h1 : oracle 1 = AttemptResult.fail e1) (h2 : oracle 2 = AttemptResult.fail e2)
    (h3 : oracle 3 = AttemptResult.fail e3) :
    callMlApi oracle 3 =
      { result := some (Except.error ("ML API failed after 3 attempts: " ++ e3))
        delays := [1000, 2000], attempts := 3 } := by
  have s1 : callMlApi oracle 3 = attemptLoop oracle 3 1 (2 + 1) := rfl
  have s2 : attemptLoop oracle 3 2 2 = attemptLoop oracle 3 2 (1 + 1) := rfl
  have s3 : attemptLoop oracle 3 3 1 = attemptLoop oracle 3 3 (0 + 1) := rfl
  rw [s1, attemptLoop_fail_step oracle 3 1 2 e1 h1 (by omega), s2,
    attemptLoop_fail_step oracle 3 2 1 e2 h2 (by omega), s3,
    attemptLoop_fail_last oracle 3 3 0 e3 h3 rfl]
  have hd1 : mlDelay 1 = 1000 := by norm_num [mlDelay]
  have hd2 : mlDelay 2 = 2000 := by norm_num [mlDelay]
  have hs : ("ML API failed after " ++ toString (3 : ℕ) ++ " attempts: " ++ e3) =
      "ML API failed after 3 attempts: " ++ e3 := rfl
  rw [hd1, hd2, hs]

/-- C1: for every processed transaction (under the remote-scorer contract that
a returned probability lies in [0,1]), the verdict recorded in the emitted
ScoredTransaction is FRAUD exactly when the recorded 3-decimal-rounded
risk_score is strictly greater than 0.7 and SAFE otherwise (equality with 0.7
gives SAFE); the verdict is thus a pure deterministic function of the recorded
risk_score. -/
theorem C1_verdict_function_of_risk_score (clockv iv : ℕ) (txn : Txn)
    (mlResult : Except String ℚ)
    (hml : ∀ p : ℚ, mlResult = Except.ok p → 0 ≤ p ∧ p ≤ 1) :
    (processOne clockv iv txn mlResult).verdict =
      if 0.7 < (processOne clockv iv txn mlResult).risk_score then "FRAUD" else "SAFE" := by
  cases mlResult with
  | error e =>
    rcases checkHardcodedRules_cases txn with hr | hr | hr
    · simp only [processOne, hr, round3_zero]
    · simp only [processOne, hr, round3_p95]
    · simp only [processOne, hr, round3_one]
  | ok p =>
    obtain ⟨hp0, hp1⟩ := hml p rfl
    rcases checkHardcodedRules_cases txn with hr | hr | hr
    · simp only [processOne, hr]
      have hov : ¬ ((0 : ℚ) ≥ 0.9) := by norm_num
      simp only [if_neg hov]
      have hble : (0 : ℚ) * 0.4 + p * 0.6 ≤ 3 / 5 := by linarith
      have h1 : ¬ ((0 : ℚ) * 0.4 + p * 0.6 > 0.7) := by linarith
      have h2 : ¬ ((0.7 : ℚ) < round3 ((0 : ℚ) * 0.4 + p * 0.6)) := by
        have hm := round3_mono hble
        rw [round3_p6] at hm
        linarith
      simp only [if_neg h1, if_neg h2]
    · simp only [processOne, hr]
      norm_num [round3_one]
    · simp only [processOne, hr]
      norm_num [round3_one]

/-- C1 witness: the theorem instantiated at a concrete clean transaction and a
concrete in-range remote score. -/
theorem C1_witness :
    (processOne 0 0 cleanTxn (Except.ok 0.5)).verdict =
      if 0.7 < (processOne 0 0 cleanTxn (Except.ok 0.5)).risk_score then "FRAUD" else "SAFE" :=
  C1_verdict_function_of_risk_score 0 0 cleanTxn (Except.ok 0.5) (fun p hp => by
    injection hp with h
    rw [← h]
    exact ⟨by norm_num, by norm_num⟩)

/-- C2 counterexample: ghostTxn has rule_score 0.95, at least 0.9, yet when the
remote scorer has failed (ml_score absent) the emitted risk_score is 0.95, not
the claimed 1.0: the hard override is absent from the fallback branch. -/
theorem C2_counterexample :
    0.9 ≤ (processOne 0 0 ghostTxn (Except.error "boom")).rule_score ∧
      (processOne 0 0 ghostTxn (Except.error "boom")).ml_score = none ∧
      (processOne 0 0 ghostTxn (Except.error "boom")).risk_score ≠ 1 := by
  refine ⟨?_, rfl, ?_⟩
  · show (0.9 : ℚ) ≤ checkHardcodedRules ghostTxn
    rw [ghostTxn_score]
    norm_num
  · show round3 (checkHardcodedRules ghostTxn) ≠ 1
    rw [ghostTxn_score, round3_p95]
    norm_num

/-- C2 amended: when rule_score is at least 0.9 and the remote score succeeded,
the final risk_score is forced to 1.0 and the verdict is FRAUD irrespective of
the ml_score value; when the remote scorer failed (ml_score absent) the verdict
is still FRAUD but the risk_score equals the rule_score rather than 1.0. -/
theorem C2_hard_override (clockv iv : ℕ) (txn : Txn) (p : ℚ)
    (hr : 0.9 ≤ checkHardcodedRules txn) :
    ((processOne clockv iv txn (Except.ok p)).risk_score = 1 ∧
      (processOne clockv iv txn (Except.ok p)).verdict = "FRAUD" ∧
      (processOne clockv iv txn (Except.ok p)).ml_score = some p) ∧
    (∀ e : String, (processOne clockv iv txn (Except.error e)).verdict = "FRAUD" ∧
      (processOne clockv iv txn (Except.error e)).ml_score = none ∧
      (processOne clockv iv txn (Except.error e)).risk_score = checkHardcodedRules txn) := by
  constructor
  · have hov : checkHardcodedRules txn ≥ 0.9 := hr
    simp only [processOne, if_pos hov]
    norm_num [round3_one]
  · intro e
    rcases checkHardcodedRules_cases txn with h0 | h0 | h0
    · rw [h0] at hr
      norm_num at hr
    · simp only [processOne, h0, round3_p95]
      norm_num
    · simp only [processOne, h0, round3_one]
      norm_num

/-- C2 witness: the amended override theorem instantiated at ghostTxn (rule
score 0.95) and a weak remote score 0.1. -/
theorem C2_witness :
    (processOne 0 0 ghostTxn (Except.ok 0.1)).risk_score = 1 ∧
      (processOne 0 0 ghostTxn (Except.ok 0.1)).verdict = "FRAUD" ∧
      (processOne 0 0 ghostTxn (Except.ok 0.1)).ml_score = some 0.1 :=
  (C2_hard_override 0 0 ghostTxn 0.1 (by rw [ghostTxn_score]; norm_num)).1

/-- C3 counterexample: after all three attempts fail, the emitted fallback
reason is "ML unavailable - Rule-based scoring only", not the claimed
"scorer unavailable, rule-based fallback". -/
theorem C3_counterexample :
    (callMlApi (fun _ => AttemptResult.fail "timeout") 3).result =
      some (Except.error "ML API failed after 3 attempts: timeout") ∧
    (processOne 0 0 ghostTxn (Except.error "ML API failed after 3 attempts: timeout")).reason ≠
      "scorer unavailable, rule-based fallback" := by
  constructor
  · rfl
  · intro h
    have h2 : "ML unavailable - Rule-based scoring only" =
        "scorer unavailable, rule-based fallback" := h
    exact absurd h2 (by decide)

/-- C3 amended: if the remote scorer fails all 3 attempts, the call signals a
definitive failure carrying the last error; the resulting catch-branch record
has ml_score absent, risk_score exactly equal to rule_score, and the fixed
reason "ML unavailable - Rule-based scoring only"; the batch always yields one
result per transaction. -/
theorem C3_fallback_rule_only (oracle : ℕ → AttemptResult) (e1 e2 e3 : String)
    (clockv iv : ℕ) (txn : Txn)
    (h1 : oracle 1 = AttemptResult.fail e1) (h2 : oracle 2 = AttemptResult.fail e2)
    (h3 : oracle 3 = AttemptResult.fail e3) :
    (callMlApi oracle 3).result =
        some (Except.error ("ML API failed after 3 attempts: " ++ e3)) ∧
    (∀ e : String,
      (processOne clockv iv txn (Except.error e)).ml_score = none ∧
      (processOne clockv iv txn (Except.error e)).risk_score = checkHardcodedRules txn ∧
      (processOne clockv iv txn (Except.error e)).rule_score = checkHardcodedRules txn ∧
      (processOne clockv iv txn (Except.error e)).reason =
        "ML unavailable - Rule-based scoring only") ∧
    (∀ (clk : ℕ → ℕ) (ml : ℕ → Except String ℚ) (txns : List Txn),
      (processTransactions clk txns ml).length = txns.length) := by
  refine ⟨?_, ?_, ?_⟩
  · rw [callMlApi_all_fail oracle e1 e2 e3 h1 h2 h3]
  · intro e
    refine ⟨rfl, ?_, rfl, rfl⟩
    show round3 (checkHardcodedRules txn) = checkHardcodedRules txn
    rcases checkHardcodedRules_cases txn with hr | hr | hr <;>
      simp only [hr, round3_zero, round3_p95, round3_one]
  · intro clk ml txns
    exact processFrom_length clk ml txns 0

/-- C3 witness: the amended fallback theorem instantiated at a concrete
always-failing oracle and ghostTxn. -/
theorem C3_witness :
    (callMlApi (fun _ => AttemptResult.fail "timeout") 3).result =
      some (Except.error "ML API failed after 3 attempts: timeout") ∧
    (processOne 0 0 ghostTxn (Except.error "ML API failed after 3 attempts: timeout")).ml_score =
      none ∧
    (processOne 0 0 ghostTxn
        (Except.error "ML API failed after 3 attempts: timeout")).risk_score =
      checkHardcodedRules ghostTxn := by
  have h := C3_fallback_rule_only (fun _ => AttemptResult.fail "timeout")
    "timeout" "timeout" "timeout" 0 0 ghostTxn rfl rfl rfl
  exact ⟨h.1, (h.2.1 "ML API failed after 3 attempts: timeout").1,
    (h.2.1 "ML API failed after 3 attempts: timeout").2.1⟩

/-- C4: the batch processor yields exactly one result per transaction in input
order; each result is determined by its own transaction and remote-call
outcome; a transaction whose scoring throws yields the degraded rule-only
result at its own index; and changing the outcome at index k leaves every
other index unchanged — the batch never terminates early. -/
theorem C4_batch_totality_and_isolation (clock : ℕ → ℕ) (ml : ℕ → Except String ℚ)
    (txns : List Txn) :
    (processTransactions clock txns ml).length = txns.length ∧
    (∀ (k : ℕ) (txn : Txn), txns[k]? = some txn →
      (processTransactions clock txns ml)[k]? =
        some (processOne (clock k) k txn (ml k))) ∧
    (∀ (k : ℕ) (txn : Txn) (e : String), txns[k]? = some txn → ml k = Except.error e →
      ∃ r : ScoredTxn, (processTransactions clock txns ml)[k]? = some r ∧
        r.ml_score = none ∧ r.reason = "ML unavailable - Rule-based scoring only" ∧
        r.rule_score = checkHardcodedRules txn ∧
        r.risk_score = round3 (checkHardcodedRules txn)) ∧
    (∀ (ml' : ℕ → Except String ℚ) (k : ℕ), (∀ j, j ≠ k → ml' j = ml j) →
      ∀ j, j ≠ k →
        (processTransactions clock txns ml')[j]? = (processTransactions clock txns ml)[j]?) := by
  have hget : ∀ (mlf : ℕ → Except String ℚ) (k : ℕ),
      (processTransactions clock txns mlf)[k]? =
        (txns[k]?).map fun t => processOne (clock k) k t (mlf k) := by
    intro mlf k
    have h := processFrom_getElem clock mlf txns 0 k
    simpa [processTransactions] using h
  refine ⟨processFrom_length clock ml txns 0, ?_, ?_, ?_⟩
  · intro k txn hk
    rw [hget ml k, hk]
    rfl
  · intro k txn e hk hmlk
    refine ⟨processOne (clock k) k txn (ml k), ?_, ?_, ?_, ?_, ?_⟩
    · rw [hget ml k, hk]
      rfl
    · rw [hmlk]
      rfl
    · rw [hmlk]
      rfl
    · rw [hmlk]
      rfl
    · rw [hmlk]
      rfl
  · intro ml' k hagree j hj
    rw [hget ml' j, hget ml j, hagree j hj]

/-- C4 witness: a concrete 2-transaction batch in which the remote call for
index 0 throws; index 0 is the degraded rule-only result. -/
theorem C4_witness :
    ∃ r : ScoredTxn,
      (processTransactions (fun _ => 0) [ghostTxn, cleanTxn]
          (fun j => if j = 0 then Except.error "boom" else Except.ok 0.5))[0]? = some r ∧
        r.ml_score = none ∧ r.reason = "ML unavailable - Rule-based scoring only" ∧
        r.rule_score = checkHardcodedRules ghostTxn ∧
        r.risk_score = round3 (checkHardcodedRules ghostTxn) :=
  (C4_batch_totality_and_isolation (fun _ => 0)
      (fun j => if j = 0 then Except.error "boom" else Except.ok 0.5)
      [ghostTxn, cleanTxn]).2.2.1 0 ghostTxn "boom" rfl rfl

/-- C5 (code bug): the spec says the grooming rule applies only above 1000 and
never triggers for amount at most 1000, and the code comment agrees, but the
guard in the code is amount < 1000, so at amount exactly 1000 with three
micro-transactions in history the rule triggers with risk 75. -/
theorem C5_grooming_triggers_at_1000 :
    boundaryTxn.amount ≤ 1000 ∧
      rules.checkGrooming boundaryTxn
          [{ amount := 10 }, { amount := 10 }, { amount := 10 }] =
        { triggered := true, risk := 75,
          reason :=
            some "Grooming Detected: 3+ micro-transactions found before high value transfer." } :=
  ⟨le_of_eq rfl, rfl⟩

/-- C6: for every emitted ScoredTransaction (under the remote-scorer contract
that a returned probability lies in [0,1]), rule_score, risk_score and, when
present, ml_score all lie in [0,1]. -/
theorem C6_scores_in_unit_interval (clockv iv : ℕ) (txn : Txn)
    (mlResult : Except String ℚ)
    (hml : ∀ p : ℚ, mlResult = Except.ok p → 0 ≤ p ∧ p ≤ 1) :
    (0 ≤ (processOne clockv iv txn mlResult).rule_score ∧
      (processOne clockv iv txn mlResult).rule_score ≤ 1) ∧
    (0 ≤ (processOne clockv iv txn mlResult).risk_score ∧
      (processOne clockv iv txn mlResult).risk_score ≤ 1) ∧
    (∀ m : ℚ, (processOne clockv iv txn mlResult).ml_score = some m → 0 ≤ m ∧ m ≤ 1) := by
  cases mlResult with
  | error e =>
    refine ⟨?_, ?_, ?_⟩
    · show 0 ≤ checkHardcodedRules txn ∧ checkHardcodedRules txn ≤ 1
      rcases checkHardcodedRules_cases txn with hr | hr | hr <;> rw [hr] <;>
        exact ⟨by norm_num, by norm_num⟩
    · show 0 ≤ round3 (checkHardcodedRules txn) ∧ round3 (checkHardcodedRules txn) ≤ 1
      rcases checkHardcodedRules_cases txn with hr | hr | hr <;>
        simp only [hr, round3_zero, round3_p95, round3_one] <;>
        exact ⟨by norm_num, by norm_num⟩
    · intro m hm
      exact Option.noConfusion (show (none : Option ℚ) = some m from hm)
  | ok p =>
    obtain ⟨hp0, hp1⟩ := hml p rfl
    refine ⟨?_, ?_, ?_⟩
    · show 0 ≤ checkHardcodedRules txn ∧ checkHardcodedRules txn ≤ 1
      rcases checkHardcodedRules_cases txn with hr | hr | hr <;> rw [hr] <;>
        exact ⟨by norm_num, by norm_num⟩
    · simp only [processOne]
      rcases checkHardcodedRules_cases txn with hr | hr | hr
      · simp only [hr]
        have hov : ¬ ((0 : ℚ) ≥ 0.9) := by norm_num
        simp only [if_neg hov]
        constructor
        · have hm := round3_mono (show (0 : ℚ) ≤ 0 * 0.4 + p * 0.6 by linarith)
          rw [round3_zero] at hm
          exact hm
        · have hm := round3_mono (show (0 : ℚ) * 0.4 + p * 0.6 ≤ 3 / 5 by linarith)
          rw [round3_p6] at hm
          linarith
      · simp only [hr]
        norm_num [round3_one]
      · simp only [hr]
        norm_num [round3_one]
    · intro m hm
      have h2 : some p = some m := hm
      injection h2 with h3
      rw [← h3]
      exact ⟨hp0, hp1⟩

/-- C6 witness: the theorem instantiated at a concrete clean transaction and a
concrete in-range remote score. -/
theorem C6_witness :
    (0 ≤ (processOne 0 0 cleanTxn (Except.ok 0.5)).rule_score ∧
      (processOne 0 0 cleanTxn (Except.ok 0.5)).rule_score ≤ 1) ∧
    (0 ≤ (processOne 0 0 cleanTxn (Except.ok 0.5)).risk_score ∧
      (processOne 0 0 cleanTxn (Except.ok 0.5)).risk_score ≤ 1) ∧
    (∀ m : ℚ, (processOne 0 0 cleanTxn (Except.ok 0.5)).ml_score = some m → 0 ≤ m ∧ m ≤ 1) :=
  C6_scores_in_unit_interval 0 0 cleanTxn (Except.ok 0.5) (fun p hp => by
    injection hp with h
    rw [← h]
    exact ⟨by norm_num, by norm_num⟩)

/-- C7: the aggregator equals the sum of the triggered rules' contributions
(non-triggered rules contribute 0) divided by 100 and clamped at 1.0; it is
total with output always in [0,1]; and the clamp sends an overrun such as
75+95+100 = 270 to exactly 1.0. -/
theorem C7_aggregator_clamped_sum (txn : Txn) :
    checkHardcodedRules txn = min (ruleTotalScore txn / 100) 1 ∧
      0 ≤ checkHardcodedRules txn ∧ checkHardcodedRules txn ≤ 1 ∧
      min (((75 : ℚ) + 95 + 100) / 100) 1 = 1 := by
  refine ⟨?_, ?_, ?_, by norm_num [min_def]⟩
  · have hg := grooming_empty_history txn
    rcases ghostCredit_cases txn none with h1 | h1 <;> rcases refundScam_cases txn with h2 | h2 <;>
      simp only [checkHardcodedRules, ruleTotalScore, triggeredRisk, hg, h1, h2] <;>
      norm_num
  · rcases checkHardcodedRules_cases txn with hr | hr | hr <;> rw [hr] <;> norm_num
  · rcases checkHardcodedRules_cases txn with hr | hr | hr <;> rw [hr] <;> norm_num

/-- C8: every remote-scorer call makes at most 3 attempts; the backoff after a
failed non-final attempt follows min(1000 * 2 ^ (attempt - 1), 5000), giving
waits of 1000ms then 2000ms; and when every attempt fails the call ends with a
definitive failure carrying the last underlying error and no further retry. -/
theorem C8_retry_policy :
    (∀ oracle : ℕ → AttemptResult, (callMlApi oracle 3).attempts ≤ 3) ∧
    (∀ attempt : ℕ, mlDelay attempt = min (1000 * 2 ^ (attempt - 1)) 5000) ∧
    (∀ (oracle : ℕ → AttemptResult) (e1 : String) (p : Option ℚ),
      oracle 1 = AttemptResult.fail e1 → oracle 2 = AttemptResult.ok p →
      callMlApi oracle 3 =
        { result := some (Except.ok (p.getD 0)), delays := [1000], attempts := 2 }) ∧
    (∀ (oracle : ℕ → AttemptResult) (e1 e2 : String) (p : Option ℚ),
      oracle 1 = AttemptResult.fail e1 → oracle 2 = AttemptResult.fail e2 →
      oracle 3 = AttemptResult.ok p →
      callMlApi oracle 3 =
        { result := some (Except.ok (p.getD 0)), delays := [1000, 2000], attempts := 3 }) ∧
    (∀ (oracle : ℕ → AttemptResult) (e1 e2 e3 : String),
      oracle 1 = AttemptResult.fail e1 → oracle 2 = AttemptResult.fail e2 →
      oracle 3 = AttemptResult.fail e3 →
      callMlApi oracle 3 =
        { result := some (Except.error ("ML API failed after 3 attempts: " ++ e3))
          delays := [1000, 2000], attempts := 3 }) := by
  refine ⟨?_, fun _ => rfl, callMlApi_ok_second, callMlApi_ok_third, callMlApi_all_fail⟩
  intro oracle
  exact attemptLoop_attempts_le oracle 3 3 1

/-- C8 witness: the all-fail component of the retry-policy theorem
instantiated at a concrete always-failing oracle. -/
theorem C8_witness :
    callMlApi (fun _ => AttemptResult.fail "timeout") 3 =
      { result := some (Except.error "ML API failed after 3 attempts: timeout")
        delays := [1000, 2000], attempts := 3 } := by
  have h := C8_retry_policy.2.2.2.2 (fun _ => AttemptResult.fail "timeout")
    "timeout" "timeout" "timeout" rfl rfl rfl
  exact h

/-- C9 counterexample: for a transaction with no txn_id, two runs of the same
scoring differing only in the ambient time produce different
ScoredTransactions — the generated transaction_id embeds Date.now(). -/
theorem C9_counterexample :
    processOne 0 0 noIdTxn (Except.ok 0.5) ≠ processOne 1 0 noIdTxn (Except.ok 0.5) := by
  intro h
  have h2 := congrArg ScoredTxn.transaction_id h
  have e1 : (processOne 0 0 noIdTxn (Except.ok 0.5)).transaction_id = "TXN-0-0" := rfl
  have e2 : (processOne 1 0 noIdTxn (Except.ok 0.5)).transaction_id = "TXN-1-0" := rfl
  rw [e1, e2] at h2
  exact absurd h2 (by decide)

/-- C9 amended: re-running the scoring of a fixed transaction with the same
mocked scorer outcome is deterministic provided the transaction carries a
nonempty txn_id; only the time-derived generated identifier for id-less rows
breaks run-to-run byte-identity. -/
theorem C9_determinism_with_id (t1 t2 iv : ℕ) (txn : Txn) (mlResult : Except String ℚ)
    (hid : ∃ s : String, txn.txn_id = some s ∧ s ≠ "") :
    processOne t1 iv txn mlResult = processOne t2 iv txn mlResult := by
  obtain ⟨s, hs, hne⟩ := hid
  cases mlResult <;> simp only [processOne, hs, jsOrS, if_neg hne]

/-- C9 witness: the amended determinism theorem at ghostTxn (txn_id "T1") and
two different run times. -/
theorem C9_witness :
    processOne 0 0 ghostTxn (Except.ok 0.5) = processOne 99 0 ghostTxn (Except.ok 0.5) :=
  C9_determinism_with_id 0 99 0 ghostTxn (Except.ok 0.5) ⟨"T1", rfl, by decide⟩

/-- C10: the aggregator is independent of historical context: it calls the
grooming rule with no history, which therefore never triggers, and the ghost
credit rule with no prior-incoming record, so its output is always exactly one
of 0, 0.95 or 1. -/
theorem C10_rule_score_values (txn : Txn) :
    (rules.checkGrooming txn []).triggered = false ∧
      (checkHardcodedRules txn = 0 ∨ checkHardcodedRules txn = 0.95 ∨
        checkHardcodedRules txn = 1) := by
  constructor
  · rw [grooming_empty_history txn]
  · exact checkHardcodedRules_cases txn
